import Mathlib

/-!
Verification of the game-state core of a falling-block puzzle engine.

The orchestrating module src/src/game.rs is embedded directly.  The
collaborator modules board.rs, active_figure.rs, move_validator.rs and
figure.rs are not among the staged sources; their definitions below are
modelled from the specification (sections 3, 4.1, 4.2 and 4.3) and each
such definition is marked in its doc comment.
-/

namespace TetrisCore

/-- Grid coordinate (src/src/figure/utilities/geometry.rs): a point with
two signed 32-bit components, modelled on unbounded integers. -/
structure Point where
  x : Int
  y : Int
deriving DecidableEq, Repr

/-- Playfield dimensions (src/src/figure/utilities/geometry.rs). -/
structure Size where
  height : Nat
  width : Nat
deriving DecidableEq, Repr

/-- The seven tetromino kinds (FigureType, re-exported by src/src/lib.rs;
the defining file figure.rs is not among the staged sources). -/
inductive FigureType
  | I
  | J
  | L
  | O
  | S
  | T
  | Z
deriving DecidableEq, Repr

/-- Modelled from the spec: the Piece Shape Table of figure.rs (not among
the staged sources).  Each kind has a base square cell matrix; a nonzero
entry marks an occupied cell.  Every kind covers exactly 4 cells. -/
def baseMatrix : FigureType → List (List Nat)
  | .I => [[0, 0, 0, 0], [1, 1, 1, 1], [0, 0, 0, 0], [0, 0, 0, 0]]
  | .J => [[1, 0, 0], [1, 1, 1], [0, 0, 0]]
  | .L => [[0, 0, 1], [1, 1, 1], [0, 0, 0]]
  | .O => [[1, 1], [1, 1]]
  | .S => [[0, 1, 1], [1, 1, 0], [0, 0, 0]]
  | .T => [[0, 1, 0], [1, 1, 1], [0, 0, 0]]
  | .Z => [[1, 1, 0], [0, 1, 1], [0, 0, 0]]

/-- Modelled from the spec: one 90-degree turn of a square cell matrix,
realising the next of the four discrete rotation states. -/
def rotateMatrix (m : List (List Nat)) : List (List Nat) :=
  (List.range m.length).map fun r =>
    (List.range m.length).map fun c => (m.getD (m.length - 1 - c) []).getD r 0

/-- Modelled from the spec: the falling piece of active_figure.rs (not among
the staged sources): kind, rotation state and anchor position. -/
structure ActiveFigure where
  figureType : FigureType
  rotation : Nat
  position : Point
deriving DecidableEq, Repr

/-- Modelled from the spec: a freshly spawned piece starts in the first
rotation state at the given anchor. -/
def ActiveFigure.new (figure : FigureType) (position : Point) : ActiveFigure :=
  ⟨figure, 0, position⟩

/-- Plain accessor for the kind of the piece (get_type in the source). -/
def ActiveFigure.get_type (a : ActiveFigure) : FigureType :=
  a.figureType

/-- Modelled from the spec: the cell matrix of the piece in its current
rotation state (the rotation counter is taken modulo the 4 orientations). -/
def ActiveFigure.matrix (a : ActiveFigure) : List (List Nat) :=
  rotateMatrix^[a.rotation % 4] (baseMatrix a.figureType)

/-- Modelled from the spec: to_cartesian, the anchor-translated occupied
cells of the piece for its current kind and rotation state. -/
def ActiveFigure.to_cartesian (a : ActiveFigure) : List Point :=
  (a.matrix.enum.map fun row =>
    row.2.enum.filterMap fun cell =>
      if cell.2 ≠ 0 then some ⟨a.position.x + cell.1, a.position.y + row.1⟩
      else none).flatten

/-- Modelled from the spec: pure translation one column to the left. -/
def ActiveFigure.moved_left (a : ActiveFigure) : ActiveFigure :=
  { a with position := ⟨a.position.x - 1, a.position.y⟩ }

/-- Modelled from the spec: pure translation one column to the right. -/
def ActiveFigure.moved_right (a : ActiveFigure) : ActiveFigure :=
  { a with position := ⟨a.position.x + 1, a.position.y⟩ }

/-- Modelled from the spec: pure translation one row down. -/
def ActiveFigure.moved_down (a : ActiveFigure) : ActiveFigure :=
  { a with position := ⟨a.position.x, a.position.y + 1⟩ }

/-- Modelled from the spec: the naive 90-degree rotation of the piece. -/
def ActiveFigure.rotated (a : ActiveFigure) : ActiveFigure :=
  { a with rotation := a.rotation + 1 }

/-- Modelled from the spec: translation of the piece by an offset. -/
def ActiveFigure.moved_by (a : ActiveFigure) (d : Point) : ActiveFigure :=
  { a with position := ⟨a.position.x + d.x, a.position.y + d.y⟩ }

/-- Modelled from the spec: the fixed priority-ordered wall-kick offset
table tried after a rotation. -/
def wallKickOffsets : List Point :=
  [⟨-1, 0⟩, ⟨1, 0⟩, ⟨-2, 0⟩, ⟨2, 0⟩]

/-- Modelled from the spec: wall_kicked_rotation_tests, the ordered candidate
sequence for a rotation request: the naive rotation first, then the same
rotation additionally offset by each wall-kick table entry in order. -/
def ActiveFigure.wall_kicked_rotation_tests (a : ActiveFigure) : List ActiveFigure :=
  a.rotated :: wallKickOffsets.map fun d => a.rotated.moved_by d

/-- Modelled from the spec: the Playfield of board.rs (not among the staged
sources): a height-by-width grid of optional piece kinds with value
semantics.  The width is fixed at construction; rows lists the grid rows
top-to-bottom, each row left-to-right. -/
structure Board where
  width : Nat
  rows : List (List (Option FigureType))
deriving DecidableEq, Repr

/-- Modelled from the spec: a fresh all-empty board of the given size. -/
def Board.new (size : Size) : Board :=
  ⟨size.width, List.replicate size.height (List.replicate size.width none)⟩

/-- Number of rows of the board. -/
def Board.height (b : Board) : Nat :=
  b.rows.length

/-- Modelled from the spec: bounds-safe point query, empty outside the
grid rather than an error. -/
def Board.figure_at_xy (b : Board) (x y : Nat) : Option FigureType :=
  ((b.rows.getD y []).getD x none)

/-- Modelled from the spec: the full contents of one row, or none when the
row index is out of range. -/
def Board.get_line (b : Board) (n : Nat) : Option (List (Option FigureType)) :=
  b.rows.get? n

/-- Modelled from the spec: a new board identical to the receiver except
that the one addressed cell is set; placement legality is the business of
the caller. -/
def Board.replacing_figure_at_xy (b : Board) (x y : Nat) (v : Option FigureType) : Board :=
  { b with rows := b.rows.set y ((b.rows.getD y []).set x v) }

/-- Modelled from the spec: removing_lines — the surviving rows are kept
top-to-bottom excluding the listed indices, and enough fresh all-empty rows
are prepended to restore the original height. -/
def Board.removing_lines (b : Board) (lines : List Nat) : Board :=
  let surviving := (b.rows.enum.filter fun p => !lines.contains p.1).map Prod.snd
  { b with rows :=
      List.replicate (b.rows.length - surviving.length) (List.replicate b.width none) ++
        surviving }

/-- Modelled from the spec: has_valid_position of move_validator.rs (not
among the staged sources): every cell of the piece lies inside the grid and
over an empty board cell. -/
def has_valid_position (figure : ActiveFigure) (board : Board) : Bool :=
  figure.to_cartesian.all fun p =>
    decide (0 ≤ p.x) && decide (p.x < (board.width : Int)) &&
      decide (0 ≤ p.y) && decide (p.y < (board.height : Int)) &&
      (board.figure_at_xy p.x.toNat p.y.toNat).isNone

/-- Modelled from the spec: can_move_down of move_validator.rs — the
one-row-down placement of the piece is valid. -/
def can_move_down (figure : ActiveFigure) (board : Board) : Bool :=
  has_valid_position figure.moved_down board

/-- Player actions (src/src/game.rs, lines 6-11). -/
inductive Action
  | MoveDown
  | MoveLeft
  | MoveRight
  | Rotate
deriving DecidableEq, Repr

/-- Game states (src/src/game.rs, lines 17-21). -/
inductive GameState
  | Playing
  | GameOver
deriving DecidableEq, Repr

/-- The gravity period (src/src/game.rs, line 4), with 64-bit floating
point time modelled on exact rationals. -/
def MOVING_PERIOD : ℚ := 1

/-- The game aggregate (src/src/game.rs, lines 23-32).  The injected
Randomizer trait object is modelled as the stream randStream of drawn
values together with the count randCount of draws made so far. -/
structure Game where
  board : Board
  score : Nat
  active : ActiveFigure
  next : ActiveFigure
  waiting_time : ℚ
  randStream : Nat → Int
  randCount : Nat
  state : GameState
  lines : Nat

/-- Fixed spawn anchor (game.rs, lines 53-56): x is half the width minus 2,
y is 0. -/
def Game.figure_start_point (width : Nat) : Point :=
  ⟨(width : Int) / 2 - 2, 0⟩

/-- Piece construction from one drawn randomizer value (game.rs, lines
58-69): the value is matched to a kind by index, every other value giving
the last kind Z. -/
def Game.random_figure (position : Point) (v : Int) : ActiveFigure :=
  ActiveFigure.new
    (if v = 0 then FigureType.I
     else if v = 1 then FigureType.J
     else if v = 2 then FigureType.L
     else if v = 3 then FigureType.O
     else if v = 4 then FigureType.S
     else if v = 5 then FigureType.T
     else FigureType.Z)
    position

/-- Game over query (game.rs, lines 71-73). -/
def Game.is_game_over (g : Game) : Bool :=
  g.state = GameState.GameOver

/-- Adopt a candidate active piece only when it validates (game.rs, lines
197-201). -/
def Game.update_active_with (g : Game) (new_active : ActiveFigure) : Game :=
  if has_valid_position new_active g.board then { g with active := new_active } else g

/-- Left move request (game.rs, lines 167-169). -/
def Game.move_left (g : Game) : Game :=
  g.update_active_with g.active.moved_left

/-- Right move request (game.rs, lines 171-173). -/
def Game.move_right (g : Game) : Game :=
  g.update_active_with g.active.moved_right

/-- Down move request (game.rs, lines 175-177). -/
def Game.move_down (g : Game) : Game :=
  g.update_active_with g.active.moved_down

/-- First wall-kick candidate accepted by the validator (game.rs, lines
187-193). -/
def Game.wall_kicked_rotated_active_figure (g : Game) : Option ActiveFigure :=
  g.active.wall_kicked_rotation_tests.find? fun figure => has_valid_position figure g.board

/-- Rotation request (game.rs, lines 179-183). -/
def Game.rotate_active_figure (g : Game) : Game :=
  match g.wall_kicked_rotated_active_figure with
  | some rotated => g.update_active_with rotated
  | none => g

/-- Dispatch of a discrete action (game.rs, lines 158-165). -/
def Game.perform (g : Game) (action : Action) : Game :=
  match action with
  | Action.MoveLeft => g.move_left
  | Action.MoveRight => g.move_right
  | Action.MoveDown => g.move_down
  | Action.Rotate => g.rotate_active_figure

/-- Stamp every cell of the active piece into the board (game.rs, lines
203-211). -/
def Game.add_active_figure_to_board (g : Game) : Game :=
  let stamped := g.active.to_cartesian.foldl
    (fun b point =>
      b.replacing_figure_at_xy point.x.toNat point.y.toNat (some g.active.get_type))
    g.board
  { g with board := stamped }

/-- A row is completed when it exists and holds no empty cell (game.rs,
lines 238-243). -/
def Game.is_line_completed (g : Game) (line_number : Nat) : Bool :=
  match g.board.get_line line_number with
  | some line => !line.contains none
  | none => false

/-- Indices of the completed rows, scanned top-to-bottom (game.rs, lines
228-236). -/
def Game.lines_completed (g : Game) : List Nat :=
  (List.range g.board.height).filter fun line_number => g.is_line_completed line_number

/-- Remove the completed rows in one batch, add their number to the
cumulative counter and return it (game.rs, lines 219-224). -/
def Game.remove_completed_lines (g : Game) : Game × Nat :=
  ({ g with board := g.board.removing_lines g.lines_completed,
            lines := g.lines + g.lines_completed.length },
    g.lines_completed.length)

/-- Score bonus for the removed rows (game.rs, lines 247-249). -/
def Game.add_score_for (g : Game) (completed_lines : Nat) : Game :=
  { g with score := g.score + completed_lines * 100 }

/-- Promote the next piece through the validator and draw a fresh next
piece at the fixed spawn anchor (game.rs, lines 213-217). -/
def Game.add_new_active_figure (g : Game) : Game :=
  { g.update_active_with g.next with
      next := Game.random_figure (Game.figure_start_point g.board.width)
        (g.randStream g.randCount),
      randCount := g.randCount + 1 }

/-- Game over condition (game.rs, lines 251-253): the active piece anchors
at row 0 and has no valid position. -/
def Game.check_is_game_over (g : Game) : Bool :=
  decide (g.active.position.y = 0) && !has_valid_position g.active g.board

/-- Set the terminal state when the game over condition holds (game.rs,
lines 150-154). -/
def Game.update_state (g : Game) : Game :=
  if g.check_is_game_over then { g with state := GameState.GameOver } else g

/-- The lock sequence (game.rs, lines 142-148): stamp the active piece,
clear completed rows, score them, spawn the next piece, check game over. -/
def Game.update_next_figure (g : Game) : Game :=
  Game.update_state
    (Game.add_new_active_figure
      (Game.add_score_for (g.add_active_figure_to_board.remove_completed_lines).1
        (g.add_active_figure_to_board.remove_completed_lines).2))

/-- One gravity tick (game.rs, lines 131-140): nothing after game over,
otherwise a downward step when possible and the lock sequence when not. -/
def Game.update_game (g : Game) : Game :=
  if g.state = GameState.GameOver then g
  else if can_move_down g.active g.board then g.move_down
  else g.update_next_figure

/-- Time-driven update (game.rs, lines 123-129): accumulate the waiting
time and, past the gravity period, run one tick and reset the clock. -/
def Game.update (g : Game) (delta_time : ℚ) : Game :=
  let accumulated : Game := { g with waiting_time := g.waiting_time + delta_time }
  if accumulated.waiting_time > MOVING_PERIOD then
    { accumulated.update_game with waiting_time := 0 }
  else accumulated

/-- A driver call: either elapsed time or one discrete action (the two
mutating entry points of the core). -/
inductive Op
  | update (delta_time : ℚ)
  | perform (action : Action)

/-- Apply one driver call to the game. -/
def Game.applyOp (g : Game) : Op → Game
  | Op.update delta_time => g.update delta_time
  | Op.perform action => g.perform action

/-- Apply a finite sequence of driver calls in order. -/
def Game.applyOps (g : Game) (ops : List Op) : Game :=
  ops.foldl Game.applyOp g

/-- Concrete game used to instantiate the rotation claim: an empty 4-wide
6-high board with a horizontal I piece at the spawn anchor. -/
def gW3 : Game :=
  { board := Board.new ⟨6, 4⟩
    score := 0
    active := ⟨FigureType.I, 0, ⟨0, 0⟩⟩
    next := ⟨FigureType.O, 0, ⟨0, 0⟩⟩
    waiting_time := 0
    randStream := fun _ => 0
    randCount := 0
    state := GameState.Playing
    lines := 0 }

/-- Concrete game used to instantiate the rejected-action claim: an I piece
walled in on all sides with every wall-kick candidate blocked. -/
def gW8 : Game :=
  { board := ⟨6,
      [List.replicate 6 none,
        List.replicate 6 none,
        List.replicate 6 none,
        [none, none, none, none, some FigureType.T, none],
        [some FigureType.T, some FigureType.T, some FigureType.T, some FigureType.T, none, none],
        List.replicate 6 none]⟩
    score := 0
    active := ⟨FigureType.I, 0, ⟨0, 2⟩⟩
    next := ⟨FigureType.O, 0, ⟨1, 0⟩⟩
    waiting_time := 0
    randStream := fun _ => 0
    randCount := 0
    state := GameState.Playing
    lines := 0 }

/-- Concrete game used to instantiate the gravity-clock claim: half a
period already accumulated on an empty board. -/
def gW2 : Game :=
  { board := Board.new ⟨6, 4⟩
    score := 0
    active := ⟨FigureType.I, 0, ⟨0, 0⟩⟩
    next := ⟨FigureType.O, 0, ⟨0, 0⟩⟩
    waiting_time := 1 / 2
    randStream := fun _ => 0
    randCount := 0
    state := GameState.Playing
    lines := 0 }

/-- Concrete game used for the game-over action claim: the game is over
with the active piece blocked in place at the top, yet one cell to its left
is free. -/
def gC4 : Game :=
  { board := ⟨4,
      [[none, none, some FigureType.I, none],
        List.replicate 4 none,
        List.replicate 4 none,
        List.replicate 4 none,
        List.replicate 4 none,
        List.replicate 4 none]⟩
    score := 0
    active := ⟨FigureType.O, 0, ⟨1, 0⟩⟩
    next := ⟨FigureType.O, 0, ⟨0, 0⟩⟩
    waiting_time := 0
    randStream := fun _ => 0
    randCount := 0
    state := GameState.GameOver
    lines := 0 }

/-- Concrete game-over game used to instantiate the monotonicity claim. -/
def gW6 : Game :=
  { board := Board.new ⟨6, 4⟩
    score := 0
    active := ⟨FigureType.O, 0, ⟨0, 0⟩⟩
    next := ⟨FigureType.O, 0, ⟨0, 0⟩⟩
    waiting_time := 0
    randStream := fun _ => 0
    randCount := 0
    state := GameState.GameOver
    lines := 0 }

/-- Concrete game used to instantiate the lock-and-clear claim: the bottom
row lacks exactly the two cells the locking O piece fills. -/
def gW1 : Game :=
  { board := ⟨4,
      [List.replicate 4 none, List.replicate 4 none, List.replicate 4 none,
        List.replicate 4 none, List.replicate 4 none,
        [some FigureType.I, some FigureType.I, none, none]]⟩
    score := 7
    active := ⟨FigureType.O, 0, ⟨2, 4⟩⟩
    next := ⟨FigureType.O, 0, ⟨0, 0⟩⟩
    waiting_time := 0
    randStream := fun _ => 2
    randCount := 5
    state := GameState.Playing
    lines := 3 }

/-- Concrete game used to instantiate the lock game-over claim: the piece
locks at the top and the next piece cannot be placed, so the stale active
piece at row 0 is invalid and the game ends. -/
def gW7 : Game :=
  { board := ⟨4,
      [List.replicate 4 none, List.replicate 4 none,
        [some FigureType.I, none, none, none],
        List.replicate 4 none, List.replicate 4 none, List.replicate 4 none]⟩
    score := 0
    active := ⟨FigureType.O, 0, ⟨0, 0⟩⟩
    next := ⟨FigureType.O, 0, ⟨0, 0⟩⟩
    waiting_time := 0
    randStream := fun _ => 3
    randCount := 0
    state := GameState.Playing
    lines := 0 }

/-- Concrete game refuting the unconditional-promotion claim: the next
piece overlaps a surviving board cell in the spawn zone, so the promotion
is rejected and the stale active piece is retained. -/
def gC5 : Game :=
  { board := ⟨4,
      [List.replicate 4 none,
        [none, some FigureType.I, none, none],
        List.replicate 4 none, List.replicate 4 none,
        List.replicate 4 none, List.replicate 4 none]⟩
    score := 0
    active := ⟨FigureType.O, 0, ⟨0, 4⟩⟩
    next := ⟨FigureType.O, 0, ⟨0, 0⟩⟩
    waiting_time := 0
    randStream := fun _ => 1
    randCount := 0
    state := GameState.Playing
    lines := 0 }

/-- Concrete game used to instantiate the amended C5: the next piece is
placeable and is promoted. -/
def gW5 : Game :=
  { board := ⟨4,
      [List.replicate 4 none, List.replicate 4 none, List.replicate 4 none,
        List.replicate 4 none, List.replicate 4 none, List.replicate 4 none]⟩
    score := 0
    active := ⟨FigureType.O, 0, ⟨0, 4⟩⟩
    next := ⟨FigureType.O, 0, ⟨0, 0⟩⟩
    waiting_time := 0
    randStream := fun _ => 4
    randCount := 2
    state := GameState.Playing
    lines := 0 }

/-! Helper lemmas: how each stage of the pipeline acts on the record fields. -/

theorem update_active_with_of_valid (g : Game) (a : ActiveFigure)
    (h : has_valid_position a g.board = true) :
    g.update_active_with a = { g with active := a } := by
  simp [Game.update_active_with, h]

theorem update_active_with_of_invalid (g : Game) (a : ActiveFigure)
    (h : has_valid_position a g.board = false) :
    g.update_active_with a = g := by
  simp [Game.update_active_with, h]

@[simp] theorem update_active_with_board (g : Game) (a : ActiveFigure) :
    (g.update_active_with a).board = g.board := by
  unfold Game.update_active_with; split <;> rfl

@[simp] theorem update_active_with_score (g : Game) (a : ActiveFigure) :
    (g.update_active_with a).score = g.score := by
  unfold Game.update_active_with; split <;> rfl

@[simp] theorem update_active_with_lines (g : Game) (a : ActiveFigure) :
    (g.update_active_with a).lines = g.lines := by
  unfold Game.update_active_with; split <;> rfl

@[simp] theorem update_active_with_next (g : Game) (a : ActiveFigure) :
    (g.update_active_with a).next = g.next := by
  unfold Game.update_active_with; split <;> rfl

@[simp] theorem update_active_with_waiting_time (g : Game) (a : ActiveFigure) :
    (g.update_active_with a).waiting_time = g.waiting_time := by
  unfold Game.update_active_with; split <;> rfl

@[simp] theorem update_active_with_state (g : Game) (a : ActiveFigure) :
    (g.update_active_with a).state = g.state := by
  unfold Game.update_active_with; split <;> rfl

@[simp] theorem update_active_with_randStream (g : Game) (a : ActiveFigure) :
    (g.update_active_with a).randStream = g.randStream := by
  unfold Game.update_active_with; split <;> rfl

@[simp] theorem update_active_with_randCount (g : Game) (a : ActiveFigure) :
    (g.update_active_with a).randCount = g.randCount := by
  unfold Game.update_active_with; split <;> rfl

theorem update_active_with_active_or (g : Game) (a : ActiveFigure) :
    (g.update_active_with a).active = g.active ∨
      has_valid_position (g.update_active_with a).active g.board = true := by
  unfold Game.update_active_with
  by_cases h : has_valid_position a g.board = true
  · right; simp [h]
  · left; simp [h]

@[simp] theorem add_active_figure_to_board_score (g : Game) :
    g.add_active_figure_to_board.score = g.score := rfl

@[simp] theorem add_active_figure_to_board_lines (g : Game) :
    g.add_active_figure_to_board.lines = g.lines := rfl

@[simp] theorem add_active_figure_to_board_active (g : Game) :
    g.add_active_figure_to_board.active = g.active := rfl

@[simp] theorem add_active_figure_to_board_next (g : Game) :
    g.add_active_figure_to_board.next = g.next := rfl

@[simp] theorem add_active_figure_to_board_waiting_time (g : Game) :
    g.add_active_figure_to_board.waiting_time = g.waiting_time := rfl

@[simp] theorem add_active_figure_to_board_state (g : Game) :
    g.add_active_figure_to_board.state = g.state := rfl

@[simp] theorem add_active_figure_to_board_randStream (g : Game) :
    g.add_active_figure_to_board.randStream = g.randStream := rfl

@[simp] theorem add_active_figure_to_board_randCount (g : Game) :
    g.add_active_figure_to_board.randCount = g.randCount := rfl

@[simp] theorem remove_completed_lines_fst_board (g : Game) :
    (g.remove_completed_lines).1.board = g.board.removing_lines g.lines_completed := rfl

@[simp] theorem remove_completed_lines_fst_lines (g : Game) :
    (g.remove_completed_lines).1.lines = g.lines + g.lines_completed.length := rfl

@[simp] theorem remove_completed_lines_snd (g : Game) :
    (g.remove_completed_lines).2 = g.lines_completed.length := rfl

@[simp] theorem remove_completed_lines_fst_score (g : Game) :
    (g.remove_completed_lines).1.score = g.score := rfl

@[simp] theorem remove_completed_lines_fst_active (g : Game) :
    (g.remove_completed_lines).1.active = g.active := rfl

@[simp] theorem remove_completed_lines_fst_next (g : Game) :
    (g.remove_completed_lines).1.next = g.next := rfl

@[simp] theorem remove_completed_lines_fst_waiting_time (g : Game) :
    (g.remove_completed_lines).1.waiting_time = g.waiting_time := rfl

@[simp] theorem remove_completed_lines_fst_state (g : Game) :
    (g.remove_completed_lines).1.state = g.state := rfl

@[simp] theorem remove_completed_lines_fst_randStream (g : Game) :
    (g.remove_completed_lines).1.randStream = g.randStream := rfl

@[simp] theorem remove_completed_lines_fst_randCount (g : Game) :
    (g.remove_completed_lines).1.randCount = g.randCount := rfl

@[simp] theorem add_score_for_score (g : Game) (k : Nat) :
    (g.add_score_for k).score = g.score + k * 100 := rfl

@[simp] theorem add_score_for_board (g : Game) (k : Nat) :
    (g.add_score_for k).board = g.board := rfl

@[simp] theorem add_score_for_lines (g : Game) (k : Nat) :
    (g.add_score_for k).lines = g.lines := rfl

@[simp] theorem add_score_for_active (g : Game) (k : Nat) :
    (g.add_score_for k).active = g.active := rfl

@[simp] theorem add_score_for_next (g : Game) (k : Nat) :
    (g.add_score_for k).next = g.next := rfl

@[simp] theorem add_score_for_waiting_time (g : Game) (k : Nat) :
    (g.add_score_for k).waiting_time = g.waiting_time := rfl

@[simp] theorem add_score_for_state (g : Game) (k : Nat) :
    (g.add_score_for k).state = g.state := rfl

@[simp] theorem add_score_for_randStream (g : Game) (k : Nat) :
    (g.add_score_for k).randStream = g.randStream := rfl

@[simp] theorem add_score_for_randCount (g : Game) (k : Nat) :
    (g.add_score_for k).randCount = g.randCount := rfl

@[simp] theorem add_new_active_figure_board (g : Game) :
    g.add_new_active_figure.board = g.board := by
  unfold Game.add_new_active_figure
  simp

@[simp] theorem add_new_active_figure_score (g : Game) :
    g.add_new_active_figure.score = g.score := by
  unfold Game.add_new_active_figure
  simp

@[simp] theorem add_new_active_figure_lines (g : Game) :
    g.add_new_active_figure.lines = g.lines := by
  unfold Game.add_new_active_figure
  simp

@[simp] theorem add_new_active_figure_waiting_time (g : Game) :
    g.add_new_active_figure.waiting_time = g.waiting_time := by
  unfold Game.add_new_active_figure
  simp

@[simp] theorem add_new_active_figure_state (g : Game) :
    g.add_new_active_figure.state = g.state := by
  unfold Game.add_new_active_figure
  simp

@[simp] theorem add_new_active_figure_randStream (g : Game) :
    g.add_new_active_figure.randStream = g.randStream := by
  unfold Game.add_new_active_figure
  simp

@[simp] theorem add_new_active_figure_randCount (g : Game) :
    g.add_new_active_figure.randCount = g.randCount + 1 := by
  unfold Game.add_new_active_figure
  simp

@[simp] theorem add_new_active_figure_next (g : Game) :
    g.add_new_active_figure.next =
      Game.random_figure (Game.figure_start_point g.board.width) (g.randStream g.randCount) := by
  unfold Game.add_new_active_figure
  simp

@[simp] theorem add_new_active_figure_active (g : Game) :
    g.add_new_active_figure.active = (g.update_active_with g.next).active := by
  unfold Game.add_new_active_figure
  simp

@[simp] theorem update_state_board (g : Game) : g.update_state.board = g.board := by
  unfold Game.update_state; split <;> rfl

@[simp] theorem update_state_score (g : Game) : g.update_state.score = g.score := by
  unfold Game.update_state; split <;> rfl

@[simp] theorem update_state_lines (g : Game) : g.update_state.lines = g.lines := by
  unfold Game.update_state; split <;> rfl

@[simp] theorem update_state_active (g : Game) : g.update_state.active = g.active := by
  unfold Game.update_state; split <;> rfl

@[simp] theorem update_state_next (g : Game) : g.update_state.next = g.next := by
  unfold Game.update_state; split <;> rfl

@[simp] theorem update_state_waiting_time (g : Game) :
    g.update_state.waiting_time = g.waiting_time := by
  unfold Game.update_state; split <;> rfl

@[simp] theorem update_state_randStream (g : Game) :
    g.update_state.randStream = g.randStream := by
  unfold Game.update_state; split <;> rfl

@[simp] theorem update_state_randCount (g : Game) :
    g.update_state.randCount = g.randCount := by
  unfold Game.update_state; split <;> rfl

theorem update_state_state (g : Game) :
    g.update_state.state = if g.check_is_game_over then GameState.GameOver else g.state := by
  unfold Game.update_state; split <;> simp_all

theorem update_active_with_frame (g : Game) (c : ActiveFigure) :
    (g.update_active_with c).board = g.board ∧
    (g.update_active_with c).score = g.score ∧
    (g.update_active_with c).lines = g.lines ∧
    (g.update_active_with c).next = g.next ∧
    (g.update_active_with c).waiting_time = g.waiting_time ∧
    (g.update_active_with c).state = g.state ∧
    (g.update_active_with c).randStream = g.randStream ∧
    (g.update_active_with c).randCount = g.randCount ∧
    ((g.update_active_with c).active = g.active ∨
      has_valid_position (g.update_active_with c).active g.board = true) :=
  ⟨by simp, by simp, by simp, by simp, by simp, by simp, by simp, by simp,
    update_active_with_active_or g c⟩

theorem perform_frame (a : Action) (g : Game) :
    (g.perform a).board = g.board ∧
    (g.perform a).score = g.score ∧
    (g.perform a).lines = g.lines ∧
    (g.perform a).next = g.next ∧
    (g.perform a).waiting_time = g.waiting_time ∧
    (g.perform a).state = g.state ∧
    (g.perform a).randStream = g.randStream ∧
    (g.perform a).randCount = g.randCount ∧
    ((g.perform a).active = g.active ∨
      has_valid_position (g.perform a).active g.board = true) := by
  cases a with
  | MoveDown => exact update_active_with_frame g g.active.moved_down
  | MoveLeft => exact update_active_with_frame g g.active.moved_left
  | MoveRight => exact update_active_with_frame g g.active.moved_right
  | Rotate =>
      simp only [Game.perform]
      cases h : g.wall_kicked_rotated_active_figure with
      | some f =>
          have hrot : g.rotate_active_figure = g.update_active_with f := by
            simp [Game.rotate_active_figure, h]
          rw [hrot]
          exact update_active_with_frame g f
      | none =>
          have hrot : g.rotate_active_figure = g := by
            simp [Game.rotate_active_figure, h]
          rw [hrot]
          exact ⟨rfl, rfl, rfl, rfl, rfl, rfl, rfl, rfl, Or.inl rfl⟩

/-- C10: for every action and in every state, perform modifies at most the
active field of the game — board, score, lines, next, waiting_time, state
and the randomizer are untouched — and whenever active does change, the new
active piece has a valid position against the current board. -/
theorem perform_modifies_at_most_active (a : Action) (g : Game) :
    (g.perform a).board = g.board ∧
    (g.perform a).score = g.score ∧
    (g.perform a).lines = g.lines ∧
    (g.perform a).next = g.next ∧
    (g.perform a).waiting_time = g.waiting_time ∧
    (g.perform a).state = g.state ∧
    (g.perform a).randStream = g.randStream ∧
    (g.perform a).randCount = g.randCount ∧
    ((g.perform a).active = g.active ∨
      has_valid_position (g.perform a).active g.board = true) :=
  perform_frame a g

/-- C8: a translated piece that fails validation, or a rotation none of
whose wall-kick candidates validates, makes perform a silent no-op: the
whole game value is returned unchanged, with no fault surfaced. -/
theorem rejected_action_is_silent_noop (g : Game) :
    (has_valid_position g.active.moved_left g.board = false →
      g.perform Action.MoveLeft = g) ∧
    (has_valid_position g.active.moved_right g.board = false →
      g.perform Action.MoveRight = g) ∧
    (has_valid_position g.active.moved_down g.board = false →
      g.perform Action.MoveDown = g) ∧
    ((∀ x ∈ g.active.wall_kicked_rotation_tests, has_valid_position x g.board = false) →
      g.perform Action.Rotate = g) := by
  refine ⟨?_, ?_, ?_, ?_⟩
  · intro h
    exact update_active_with_of_invalid g g.active.moved_left h
  · intro h
    exact update_active_with_of_invalid g g.active.moved_right h
  · intro h
    exact update_active_with_of_invalid g g.active.moved_down h
  · intro h
    have hn : g.wall_kicked_rotated_active_figure = none := by
      unfold Game.wall_kicked_rotated_active_figure
      rw [List.find?_eq_none]
      intro x hx
      simp [h x hx]
    show g.rotate_active_figure = g
    simp [Game.rotate_active_figure, hn]

/-- C3: a Rotate action replaces the active piece by the first element of
the ordered wall-kick candidate sequence that the validator accepts; when
no candidate validates, rotation is a no-op. -/
theorem rotate_adopts_first_valid_candidate (g : Game) :
    ((∀ x ∈ g.active.wall_kicked_rotation_tests, has_valid_position x g.board = false) →
      g.rotate_active_figure = g) ∧
    (∀ l1 f l2, g.active.wall_kicked_rotation_tests = l1 ++ f :: l2 →
      has_valid_position f g.board = true →
      (∀ x ∈ l1, has_valid_position x g.board = false) →
      (g.rotate_active_figure).active = f) := by
  constructor
  · intro h
    have hn : g.wall_kicked_rotated_active_figure = none := by
      unfold Game.wall_kicked_rotated_active_figure
      rw [List.find?_eq_none]
      intro x hx
      simp [h x hx]
    simp [Game.rotate_active_figure, hn]
  · intro l1 f l2 hsplit hf hl1
    have hs : g.wall_kicked_rotated_active_figure = some f := by
      unfold Game.wall_kicked_rotated_active_figure
      rw [List.find?_eq_some]
      refine ⟨by simp [hf], l1, l2, hsplit, ?_⟩
      intro x hx
      simp [hl1 x hx]
    simp [Game.rotate_active_figure, hs, update_active_with_of_valid g f hf]

/-- C9: the randomizer value is mapped to a piece kind by index, every
out-of-range value (negative or at least 6) collapsing to the last kind Z;
construction always succeeds, at the requested anchor in rotation state 0. -/
theorem random_figure_maps_index_to_kind :
    (∀ p : Point,
      (Game.random_figure p 0).get_type = FigureType.I ∧
      (Game.random_figure p 1).get_type = FigureType.J ∧
      (Game.random_figure p 2).get_type = FigureType.L ∧
      (Game.random_figure p 3).get_type = FigureType.O ∧
      (Game.random_figure p 4).get_type = FigureType.S ∧
      (Game.random_figure p 5).get_type = FigureType.T ∧
      (Game.random_figure p 6).get_type = FigureType.Z) ∧
    (∀ p : Point, ∀ v : Int, v < 0 ∨ 6 ≤ v →
      (Game.random_figure p v).get_type = FigureType.Z) ∧
    (∀ p : Point, ∀ v : Int,
      (Game.random_figure p v).position = p ∧ (Game.random_figure p v).rotation = 0) := by
  refine ⟨fun p => ⟨rfl, rfl, rfl, rfl, rfl, rfl, rfl⟩, ?_, fun p v => ⟨rfl, rfl⟩⟩
  intro p v hv
  have h0 : ¬v = 0 := by omega
  have h1 : ¬v = 1 := by omega
  have h2 : ¬v = 2 := by omega
  have h3 : ¬v = 3 := by omega
  have h4 : ¬v = 4 := by omega
  have h5 : ¬v = 5 := by omega
  simp [Game.random_figure, ActiveFigure.new, ActiveFigure.get_type, h0, h1, h2, h3, h4, h5]

/-- Witness for C3: on the concrete game the naive rotation itself is the
first accepted candidate and is adopted. -/
theorem rotate_adopts_first_valid_candidate_witness :
    (gW3.rotate_active_figure).active = ⟨FigureType.I, 1, ⟨0, 0⟩⟩ := by
  have h := rotate_adopts_first_valid_candidate gW3
  exact h.2 [] ⟨FigureType.I, 1, ⟨0, 0⟩⟩
    [⟨FigureType.I, 1, ⟨-1, 0⟩⟩, ⟨FigureType.I, 1, ⟨1, 0⟩⟩,
      ⟨FigureType.I, 1, ⟨-2, 0⟩⟩, ⟨FigureType.I, 1, ⟨2, 0⟩⟩]
    (by decide) (by decide) (by intro x hx; cases hx)

/-- Witness for C8: on the concrete cramped game every one of the four
actions is rejected and returns the game unchanged. -/
theorem rejected_action_is_silent_noop_witness :
    gW8.perform Action.MoveLeft = gW8 ∧ gW8.perform Action.MoveRight = gW8 ∧
      gW8.perform Action.MoveDown = gW8 ∧ gW8.perform Action.Rotate = gW8 := by
  have h := rejected_action_is_silent_noop gW8
  exact ⟨h.1 (by decide), h.2.1 (by decide), h.2.2.1 (by decide), h.2.2.2 (by decide)⟩

theorem update_game_waiting_time_irrel (g : Game) (w : ℚ) :
    Game.update_game { g with waiting_time := w } = { g.update_game with waiting_time := w } := by
  cases g with
  | mk board score active next waiting_time randStream randCount state lines =>
      unfold Game.update_game Game.move_down Game.update_next_figure
        Game.add_active_figure_to_board Game.remove_completed_lines Game.lines_completed
        Game.is_line_completed Game.add_score_for Game.add_new_active_figure
        Game.update_active_with Game.update_state Game.check_is_game_over
      dsimp only
      split_ifs <;> rfl

/-- C2: update accumulates the waiting time by delta_time; exactly when the
accumulated value exceeds the period 1 one gravity tick runs (a downward
step when the piece can fall, the lock sequence when it cannot, in the
Playing state) and the accumulator resets to 0; otherwise only waiting_time
changes. -/
theorem update_accumulates_and_ticks_past_period (g : Game) (delta_time : ℚ) :
    (g.waiting_time + delta_time ≤ MOVING_PERIOD →
      g.update delta_time = { g with waiting_time := g.waiting_time + delta_time }) ∧
    (g.waiting_time + delta_time > MOVING_PERIOD →
      g.update delta_time = { g.update_game with waiting_time := 0 } ∧
        (g.state = GameState.Playing →
          (can_move_down g.active g.board = true →
            g.update delta_time = { g.move_down with waiting_time := 0 }) ∧
          (can_move_down g.active g.board = false →
            g.update delta_time = { g.update_next_figure with waiting_time := 0 }))) := by
  constructor
  · intro h
    have hn : ¬g.waiting_time + delta_time > MOVING_PERIOD := not_lt.mpr h
    simp [Game.update, hn]
  · intro h
    have e : g.update delta_time = { g.update_game with waiting_time := 0 } := by
      have h1 : g.update delta_time =
          { Game.update_game { g with waiting_time := g.waiting_time + delta_time } with
              waiting_time := 0 } := by
        simp [Game.update, h]
      rw [update_game_waiting_time_irrel] at h1
      exact h1
    refine ⟨e, ?_⟩
    intro hstate
    have hnotover : ¬g.state = GameState.GameOver := by simp [hstate]
    constructor
    · intro hcan
      have hg : g.update_game = g.move_down := by
        simp [Game.update_game, hnotover, hcan]
      rw [hg] at e
      exact e
    · intro hcan
      have hg : g.update_game = g.update_next_figure := by
        simp [Game.update_game, hnotover, hcan]
      rw [hg] at e
      exact e

/-- Witness for C2: below the period nothing but the accumulator changes;
crossing it runs the tick and resets the accumulator. -/
theorem update_accumulates_and_ticks_past_period_witness :
    gW2.update (1 / 4) = { gW2 with waiting_time := gW2.waiting_time + 1 / 4 } ∧
      gW2.update (3 / 4) = { gW2.update_game with waiting_time := 0 } := by
  have ha := update_accumulates_and_ticks_past_period gW2 (1 / 4)
  have hb := update_accumulates_and_ticks_past_period gW2 (3 / 4)
  exact ⟨ha.1 (by norm_num [gW2, MOVING_PERIOD]), (hb.2 (by norm_num [gW2, MOVING_PERIOD])).1⟩

theorem update_game_of_game_over (g : Game) (h : g.state = GameState.GameOver) :
    g.update_game = g := by
  simp [Game.update_game, h]

/-- Counterexample to C4 as stated: after game over, perform(MoveLeft) does
change the active piece — perform carries no game-over guard. -/
theorem perform_after_game_over_can_move_active :
    gC4.state = GameState.GameOver ∧ (gC4.perform Action.MoveLeft).active ≠ gC4.active := by
  constructor
  · rfl
  · decide

/-- C4 amended: once the state is GameOver, every gravity tick leaves the
whole game unchanged and every perform leaves board, score, lines, next and
state unchanged; perform is however not disabled and may still replace the
active piece with a validly placed one. -/
theorem game_over_freezes_gravity_and_scoring (g : Game)
    (h : g.state = GameState.GameOver) :
    g.update_game = g ∧
    (∀ delta_time : ℚ,
      (g.update delta_time).board = g.board ∧
      (g.update delta_time).score = g.score ∧
      (g.update delta_time).active = g.active ∧
      (g.update delta_time).state = GameState.GameOver) ∧
    (∀ a : Action,
      (g.perform a).board = g.board ∧
      (g.perform a).score = g.score ∧
      (g.perform a).lines = g.lines ∧
      (g.perform a).next = g.next ∧
      (g.perform a).state = GameState.GameOver) := by
  refine ⟨update_game_of_game_over g h, ?_, ?_⟩
  · intro delta_time
    have hguard : Game.update_game { g with waiting_time := g.waiting_time + delta_time } =
        { g with waiting_time := g.waiting_time + delta_time } := by
      simp [Game.update_game, h]
    rw [h] at hguard
    by_cases ht : g.waiting_time + delta_time > MOVING_PERIOD
    · simp [Game.update, ht, hguard, h]
    · simp [Game.update, ht, h]
  · intro a
    have hf := perform_frame a g
    exact ⟨hf.1, hf.2.1, hf.2.2.1, hf.2.2.2.1, hf.2.2.2.2.2.1.trans h⟩

/-- Witness for the amended C4 at the concrete game-over game. -/
theorem game_over_freezes_gravity_and_scoring_witness :
    gC4.update_game = gC4 ∧ (gC4.perform Action.Rotate).score = gC4.score ∧
      (gC4.update 2).state = GameState.GameOver := by
  have h := game_over_freezes_gravity_and_scoring gC4 rfl
  exact ⟨h.1, (h.2.2 Action.Rotate).2.1, (h.2.1 2).2.2.2⟩

theorem perform_preserves_state (g : Game) (a : Action) :
    (g.perform a).state = g.state :=
  (perform_frame a g).2.2.2.2.2.1

theorem update_preserves_game_over (g : Game) (delta_time : ℚ)
    (h : g.state = GameState.GameOver) :
    (g.update delta_time).state = GameState.GameOver := by
  have hguard : Game.update_game { g with waiting_time := g.waiting_time + delta_time } =
      { g with waiting_time := g.waiting_time + delta_time } := by
    simp [Game.update_game, h]
  rw [h] at hguard
  by_cases ht : g.waiting_time + delta_time > MOVING_PERIOD
  · simp [Game.update, ht, hguard, h]
  · simp [Game.update, ht, h]

/-- C6: GameOver is monotonic — under every finite sequence of update and
perform calls, a game whose state is GameOver keeps that state; no
operation resets it to Playing. -/
theorem game_over_is_monotonic (ops : List Op) (g : Game)
    (h : g.state = GameState.GameOver) :
    (g.applyOps ops).state = GameState.GameOver := by
  induction ops generalizing g with
  | nil => exact h
  | cons op rest ih =>
      cases op with
      | update delta_time => exact ih _ (update_preserves_game_over g delta_time h)
      | perform a => exact ih _ ((perform_preserves_state g a).trans h)

/-- Witness for C6: a concrete mixed call sequence keeps GameOver. -/
theorem game_over_is_monotonic_witness :
    (gW6.applyOps [Op.update 2, Op.perform Action.MoveLeft, Op.update (1 / 2),
      Op.perform Action.Rotate]).state = GameState.GameOver :=
  game_over_is_monotonic [Op.update 2, Op.perform Action.MoveLeft, Op.update (1 / 2),
    Op.perform Action.Rotate] gW6 rfl

theorem is_line_completed_iff (G : Game) (n : Nat) :
    G.is_line_completed n = true ↔
      ∃ row, G.board.get_line n = some row ∧ row.contains none = false := by
  unfold Game.is_line_completed
  cases hrow : G.board.get_line n with
  | none => simp
  | some row => simp

theorem mem_lines_completed_iff (G : Game) (n : Nat) :
    n ∈ G.lines_completed ↔
      ∃ row, G.board.get_line n = some row ∧ row.contains none = false := by
  unfold Game.lines_completed
  simp only [List.mem_filter, List.mem_range]
  rw [is_line_completed_iff]
  constructor
  · exact fun h => h.2
  · intro h
    refine ⟨?_, h⟩
    obtain ⟨row, hr, -⟩ := h
    by_contra hge
    push_neg at hge
    unfold Board.height at hge
    have hnone : G.board.get_line n = none := by
      unfold Board.get_line
      exact List.get?_eq_none.mpr hge
    rw [hnone] at hr
    cases hr

theorem lines_completed_sorted (G : Game) : G.lines_completed.Pairwise (· < ·) := by
  unfold Game.lines_completed
  exact List.Pairwise.filter _ (List.pairwise_lt_range _)

/-- C1: in every lock sequence — a gravity tick in the Playing state with
the piece unable to fall — the board after the tick is the stamped board
with exactly the fully occupied rows removed in one batch, collected
top-to-bottom; the score grows by 100 per removed row and the cumulative
lines counter by their number; with no completed row both are unchanged. -/
theorem lock_clears_exactly_completed_rows_and_scores (g : Game)
    (hplay : g.state = GameState.Playing)
    (hblocked : can_move_down g.active g.board = false) :
    (g.update_game).board =
      (g.add_active_figure_to_board).board.removing_lines
        (g.add_active_figure_to_board).lines_completed ∧
    (g.update_game).score =
      g.score + (g.add_active_figure_to_board).lines_completed.length * 100 ∧
    (g.update_game).lines =
      g.lines + (g.add_active_figure_to_board).lines_completed.length ∧
    (∀ n, n ∈ (g.add_active_figure_to_board).lines_completed ↔
      ∃ row, (g.add_active_figure_to_board).board.get_line n = some row ∧
        row.contains none = false) ∧
    (g.add_active_figure_to_board).lines_completed.Pairwise (· < ·) ∧
    ((g.add_active_figure_to_board).lines_completed = [] →
      (g.update_game).score = g.score ∧ (g.update_game).lines = g.lines) := by
  have hng : ¬g.state = GameState.GameOver := by simp [hplay]
  have hup : g.update_game = g.update_next_figure := by
    simp [Game.update_game, hng, hblocked]
  refine ⟨?_, ?_, ?_, fun n => mem_lines_completed_iff _ n, lines_completed_sorted _, ?_⟩
  · rw [hup]; simp [Game.update_next_figure]
  · rw [hup]; simp [Game.update_next_figure]
  · rw [hup]; simp [Game.update_next_figure]
  · intro hnil
    constructor
    · rw [hup]; simp [Game.update_next_figure, hnil]
    · rw [hup]; simp [Game.update_next_figure, hnil]

/-- Witness for C1: the concrete lock completes one row, adds 100 to the
score and 1 to the lines counter. -/
theorem lock_clears_exactly_completed_rows_and_scores_witness :
    (gW1.update_game).score =
        gW1.score + (gW1.add_active_figure_to_board).lines_completed.length * 100 ∧
      (gW1.update_game).lines =
        gW1.lines + (gW1.add_active_figure_to_board).lines_completed.length ∧
      (gW1.add_active_figure_to_board).lines_completed = [5] := by
  have h := lock_clears_exactly_completed_rows_and_scores gW1 rfl (by decide)
  exact ⟨h.2.1, h.2.2.1, by decide⟩

/-- C7: at the end of a lock sequence the state is GameOver exactly when
the active piece left by the spawn step anchors at row 0 and has no valid
position against the updated board; is_game_over then reports it. -/
theorem lock_sets_game_over_iff_top_spawn_invalid (g : Game)
    (hplay : g.state = GameState.Playing) :
    ((g.update_next_figure).state = GameState.GameOver ↔
      ((g.update_next_figure).active.position.y = 0 ∧
        has_valid_position (g.update_next_figure).active (g.update_next_figure).board =
          false)) ∧
    ((g.update_next_figure).is_game_over = true ↔
      (g.update_next_figure).state = GameState.GameOver) := by
  constructor
  · unfold Game.update_next_figure
    have hst : (Game.add_new_active_figure (Game.add_score_for
        (g.add_active_figure_to_board.remove_completed_lines).1
        (g.add_active_figure_to_board.remove_completed_lines).2)).state =
        GameState.Playing := by simp [hplay]
    generalize Game.add_new_active_figure (Game.add_score_for
        (g.add_active_figure_to_board.remove_completed_lines).1
        (g.add_active_figure_to_board.remove_completed_lines).2) = X at hst ⊢
    rw [update_state_state, update_state_active, update_state_board]
    unfold Game.check_is_game_over
    by_cases hy : X.active.position.y = 0 <;>
      by_cases hv : has_valid_position X.active X.board = true <;>
        simp [hy, hv, hst, Bool.not_eq_true]
  · simp [Game.is_game_over]

/-- Witness for C7: the concrete lock does set GameOver, matching the
characterisation. -/
theorem lock_sets_game_over_iff_top_spawn_invalid_witness :
    ((gW7.update_next_figure).state = GameState.GameOver ↔
      ((gW7.update_next_figure).active.position.y = 0 ∧
        has_valid_position (gW7.update_next_figure).active (gW7.update_next_figure).board =
          false)) ∧
      (gW7.update_next_figure).state = GameState.GameOver := by
  have h := lock_sets_game_over_iff_top_spawn_invalid gW7 rfl
  exact ⟨h.1, by decide⟩

@[simp] theorem replacing_figure_at_xy_width (b : Board) (x y : Nat) (v : Option FigureType) :
    (b.replacing_figure_at_xy x y v).width = b.width := rfl

@[simp] theorem removing_lines_width (b : Board) (lines : List Nat) :
    (b.removing_lines lines).width = b.width := rfl

theorem foldl_replacing_width (t : FigureType) (l : List Point) (b : Board) :
    (l.foldl (fun bb point =>
      bb.replacing_figure_at_xy point.x.toNat point.y.toNat (some t)) b).width = b.width := by
  induction l generalizing b with
  | nil => rfl
  | cons p ps ih => exact (ih _).trans rfl

@[simp] theorem add_active_figure_to_board_board_width (g : Game) :
    g.add_active_figure_to_board.board.width = g.board.width := by
  unfold Game.add_active_figure_to_board
  exact foldl_replacing_width _ _ _

/-- Counterexample to C5 as stated: in this lock sequence the next piece
fails validation and is not promoted — the active piece stays the old one,
so promotion is conditional on has_valid_position, not unconditional. -/
theorem promotion_revalidates_next_cex :
    gC5.state = GameState.Playing ∧
      can_move_down gC5.active gC5.board = false ∧
      has_valid_position gC5.next
        (gC5.add_active_figure_to_board.remove_completed_lines).1.board = false ∧
      (gC5.update_next_figure).active = gC5.active ∧
      (gC5.update_next_figure).active ≠ gC5.next := by
  refine ⟨rfl, by decide, by decide, by decide, by decide⟩

/-- C5 amended: in every lock sequence the promotion of next runs through
update_active_with, which does re-validate: next becomes active exactly
when it has a valid position against the stamped-and-cleared board, the old
active piece being kept otherwise; a fresh next is then drawn from the
randomizer at the fixed start anchor, and the game-over check runs only
after this promotion step. -/
theorem lock_promotes_next_through_validator (g : Game) :
    (has_valid_position g.next
        (g.add_active_figure_to_board.remove_completed_lines).1.board = true →
      (g.update_next_figure).active = g.next) ∧
    (has_valid_position g.next
        (g.add_active_figure_to_board.remove_completed_lines).1.board = false →
      (g.update_next_figure).active = g.active) ∧
    (g.update_next_figure).next =
      Game.random_figure (Game.figure_start_point g.board.width)
        (g.randStream g.randCount) ∧
    (g.update_next_figure).randCount = g.randCount + 1 := by
  refine ⟨?_, ?_, ?_, ?_⟩
  · intro h
    unfold Game.update_next_figure
    rw [update_state_active, add_new_active_figure_active, update_active_with_of_valid]
    · simp
    · simpa using h
  · intro h
    unfold Game.update_next_figure
    rw [update_state_active, add_new_active_figure_active, update_active_with_of_invalid]
    · simp
    · simpa using h
  · unfold Game.update_next_figure
    rw [update_state_next, add_new_active_figure_next]
    simp
  · unfold Game.update_next_figure
    rw [update_state_randCount, add_new_active_figure_randCount]
    simp

/-- Witness for the amended C5: on the concrete lock the valid next piece
is promoted and a fresh draw is made. -/
theorem lock_promotes_next_through_validator_witness :
    (gW5.update_next_figure).active = gW5.next ∧
      (gW5.update_next_figure).randCount = gW5.randCount + 1 := by
  have h := lock_promotes_next_through_validator gW5
  exact ⟨h.1 (by decide), h.2.2.2⟩

/-- Witness for C9: concrete out-of-range and in-range randomizer values. -/
theorem random_figure_maps_index_to_kind_witness :
    (Game.random_figure ⟨0, 0⟩ (-3)).get_type = FigureType.Z ∧
      (Game.random_figure ⟨0, 0⟩ 7).get_type = FigureType.Z ∧
      (Game.random_figure ⟨0, 0⟩ 6).get_type = FigureType.Z ∧
      (Game.random_figure ⟨0, 0⟩ 0).get_type = FigureType.I := by
  have h := random_figure_maps_index_to_kind
  exact ⟨h.2.1 ⟨0, 0⟩ (-3) (Or.inl (by decide)), h.2.1 ⟨0, 0⟩ 7 (Or.inr (by decide)),
    (h.1 ⟨0, 0⟩).2.2.2.2.2.2, (h.1 ⟨0, 0⟩).1⟩

end TetrisCore
